import Mathlib

/-!
Verification of the Workspace View component (`WorkspacePanel.tsx`).

The component's state (React `useState` hooks, lines 19-25 of the source) is
embedded as a record `PanelState`; each event handler becomes a pure state
transformer taking the outcome of its network call as an explicit argument
(the code is single-threaded and every `await` is a suspension point, so a
handler run is a function of the state it reads and the responses it gets).
Network effects are made observable by returning counters of issued requests.
-/

/-- The `type` discriminator of a tree node (`"file" | "directory"`). -/
inductive FileType where
  | file
  | directory
deriving DecidableEq

/-- A node of the workspace tree (`interface FileNode`, lines 5-10):
`name`, `path`, `type`, and `children` (optional in TS; absent is modelled
as the empty list). -/
inductive FileNode where
  | mk (name : String) (path : String) (type : FileType) (children : List FileNode)

def FileNode.name : FileNode → String
  | .mk n _ _ _ => n

def FileNode.path : FileNode → String
  | .mk _ p _ _ => p

def FileNode.type : FileNode → FileType
  | .mk _ _ t _ => t

def FileNode.children : FileNode → List FileNode
  | .mk _ _ _ c => c

/-- The `selectedFile` state value: `{ path, content, name }` (line 21). -/
structure SelectedFile where
  path : String
  content : String
  name : String
deriving DecidableEq

/-- The `deleteConfirmation` state value: `{ file, isOpen }` (line 24). -/
structure DeleteConfirmation where
  file : FileNode
  isOpen : Bool

/-- Response of the workspace tree endpoint: `{ tree: FileNode[] }`.
The field is an `Option` because the code defends with `data.tree || []`. -/
structure TreeResponse where
  tree : Option (List FileNode)

/-- The component state: the seven `useState` hooks of `WorkspacePanel`
(lines 19-25).  The JS `Set<string>` of expanded folder paths is modelled
as a `Finset String`. -/
structure PanelState where
  fileTree : List FileNode
  expandedFolders : Finset String
  selectedFile : Option SelectedFile
  loading : Bool
  error : Option String
  deleteConfirmation : Option DeleteConfirmation
  isDragOver : Bool

/-- The initial state of the component (the `useState` initial values). -/
def initialState : PanelState :=
  { fileTree := []
    expandedFolders := ∅
    selectedFile := none
    loading := false
    error := none
    deleteConfirmation := none
    isDragOver := false }

/-- `loadWorkspaceTree` (lines 27-37): `setError(null)`, await the tree from
`workspaceService.getWorkspaceTree()`, and on success `setFileTree(data.tree || [])`;
the `catch` block sets the error message.  The outcome of the awaited call is
the explicit `result` argument. -/
def loadWorkspaceTree (s : PanelState) (result : Except String TreeResponse) :
    PanelState :=
  match result with
  | .ok data => { s with error := none, fileTree := data.tree.getD [] }
  | .error _ => { s with error := some "Error loading workspace" }

/-- `toggleFolder` (lines 48-56): copy the set, delete the path if present,
add it otherwise. -/
def toggleFolder (expanded : Finset String) (path : String) : Finset String :=
  if path ∈ expanded then expanded.erase path else insert path expanded

/-- The allow-list of previewable extensions (`textExtensions`, line 65). -/
def textExtensions : List String :=
  [".txt", ".md", ".json", ".yaml", ".yml", ".log", ".csv",
   ".html", ".css", ".js", ".ts", ".py"]

/-- `String.prototype.toLowerCase`, computed character by character over the
string's underlying character list. -/
def toLowerString (s : String) : String := String.mk (s.data.map Char.toLower)

/-- `String.prototype.endsWith`: `post` is a suffix of `s`. -/
def endsWithString (s post : String) : Bool := List.isSuffixOf post.data s.data

/-- `isTextFile` (line 66): `textExtensions.some(ext => file.name.toLowerCase().endsWith(ext))`. -/
def isTextFile (name : String) : Bool :=
  textExtensions.any (fun ext => endsWithString (toLowerString name) ext)

/-- Outcome of the file-content fetch in `handleFileClick`:
2xx with a JSON body, non-2xx, or a thrown error. -/
inductive FetchFileResult where
  | ok (content : String)
  | httpError
  | threw
deriving DecidableEq

/-- The completion handler of `handleFileClick`'s fetch (lines 74-91): on a
2xx response `setSelectedFile({path: file.path, content, name: file.name})`
(unconditionally — there is no comparison of the resolved path against any
currently-requested path); on a non-2xx response or a thrown error only an
alert is shown; `finally` does `setLoading(false)`. -/
def previewCommit (s : PanelState) (file : FileNode) (r : FetchFileResult) :
    PanelState :=
  match r with
  | .ok content =>
      { s with selectedFile := some ⟨file.path, content, file.name⟩
               loading := false }
  | .httpError => { s with loading := false }
  | .threw => { s with loading := false }

/-- `handleFileClick` (lines 58-92) run atomically: directories toggle
expansion; files with a non-allow-listed extension are rejected with an alert
and no network call; otherwise `setLoading(true)`, one fetch is issued, and
its completion is committed.  The second component counts issued
file-content fetches. -/
def handleFileClick (s : PanelState) (file : FileNode) (r : FetchFileResult) :
    PanelState × Nat :=
  if file.type = FileType.directory then
    ({ s with expandedFolders := toggleFolder s.expandedFolders file.path }, 0)
  else if isTextFile file.name = false then
    (s, 0)
  else
    (previewCommit { s with loading := true } file r, 1)

/-- Outcome of the download fetch in `handleDownload`. -/
inductive DownloadFetch where
  | ok
  | httpError
  | threw
deriving DecidableEq

/-- `handleDownload` (lines 94-114), observed through its object-URL
bookkeeping.  On a 2xx response the blob is materialized and
`createObjectURL` runs; then `a.click()` is invoked, and only after it
returns does `revokeObjectURL(url)` run — there is no `finally`, so if the
click throws, control jumps to the `catch` block and the URL is never
revoked.  The result is `(URLs created, URLs revoked)`. -/
def handleDownload (fetch : DownloadFetch) (clickThrows : Bool) : Nat × Nat :=
  match fetch with
  | .ok => if clickThrows then (1, 0) else (1, 1)
  | .httpError => (0, 0)
  | .threw => (0, 0)

/-- Outcome of the DELETE request in `handleDeleteConfirm`. -/
inductive DeleteResult where
  | ok
  | httpError
  | threw
deriving DecidableEq

/-- `handleDeleteConfirm` (lines 121-149): early return when no confirmation
is staged (no network call); otherwise `setLoading(true)`, issue the DELETE;
on 2xx await `loadWorkspaceTree()` (whose own outcome is `rr`) and clear
`selectedFile` when its path equals the deleted file's path; on non-2xx or a
thrown error only an alert; `finally` does `setLoading(false)` and
`setDeleteConfirmation(null)`.  The second component counts issued DELETE
requests. -/
def handleDeleteConfirm (s : PanelState) (dr : DeleteResult)
    (rr : Except String TreeResponse) : PanelState × Nat :=
  match s.deleteConfirmation with
  | none => (s, 0)
  | some conf =>
      let s1 := { s with loading := true }
      let s2 :=
        match dr with
        | .ok =>
            let s3 := loadWorkspaceTree s1 rr
            if s.selectedFile.any (fun sf : SelectedFile => sf.path == conf.file.path) = true
            then { s3 with selectedFile := none }
            else s3
        | .httpError => s1
        | .threw => s1
      ({ s2 with loading := false, deleteConfirmation := none }, 1)

/-- `handleDeleteCancel` (lines 151-153): `setDeleteConfirmation(null)` and
nothing else; the second component counts issued network requests (zero). -/
def handleDeleteCancel (s : PanelState) : PanelState × Nat :=
  ({ s with deleteConfirmation := none }, 0)

/-- The error message built for a failed upload
(`Failed to upload ${file.name}: ${response.statusText}`, line 209). -/
def uploadErrorMessage (name statusText : String) : String :=
  "Failed to upload " ++ name ++ ": " ++ statusText

/-- The rejection `Promise.all(uploadPromises)` propagates: the error of the
first failed upload in the list, if any (line 215). -/
def firstUploadError : List (String × Except String Unit) → Option String
  | [] => none
  | (name, .error st) :: _ => some (uploadErrorMessage name st)
  | (_, .ok _) :: rest => firstUploadError rest

/-- `handleFileUpload` (lines 193-225): `setLoading(true)`, `setError(null)`,
one POST issued per file (all started by `files.map` before any completion is
awaited, i.e. concurrently), `await Promise.all`; if every upload succeeded,
a single `loadWorkspaceTree()` runs (outcome `rr`); if any failed, the catch
sets the aggregate error and no refresh runs — and no rollback request of any
kind is issued for the uploads that succeeded.  `uploads` pairs each file's
name with its request outcome; result is
`(state, upload requests issued, refreshes triggered)`. -/
def handleFileUpload (s : PanelState) (uploads : List (String × Except String Unit))
    (rr : Except String TreeResponse) : PanelState × Nat × Nat :=
  let s1 := { s with loading := true, error := none }
  match firstUploadError uploads with
  | none =>
      let s2 := loadWorkspaceTree s1 rr
      ({ s2 with loading := false }, uploads.length, 1)
  | some msg =>
      ({ s1 with loading := false, error := some ("Upload failed: " ++ msg) },
       uploads.length, 0)

/-- Modelled from the spec: the throttle gate of `workspaceService`.
`WorkspacePanel` fetches the tree through
`workspaceService.getWorkspaceTree()` (line 31), but the module
`./workspaceService` is not among the sources; per the spec, it applies "a
single globally-applied throttle [that] guarantees a minimum spacing between
any two workspace API calls regardless of trigger source".  The gate keeps
the time of the last issued request; a trigger at time `t` issues a request
only when at least `window` has elapsed since then.  Returns the new gate
state and whether a request was issued. -/
def throttleStep (window : Nat) (last : Option Nat) (t : Nat) :
    Option Nat × Bool :=
  match last with
  | none => (some t, true)
  | some l => if l + window ≤ t then (some t, true) else (last, false)

/-- Modelled from the spec: running the throttle gate over a sequence of
trigger times (panel open, manual refresh click, timer tick, post-operation
refresh), counting the requests actually issued. -/
def runThrottle (window : Nat) (last : Option Nat) :
    List Nat → Option Nat × Nat
  | [] => (last, 0)
  | t :: ts =>
      let step := throttleStep window last t
      let rest := runThrottle window step.1 ts
      (rest.1, (if step.2 then 1 else 0) + rest.2)

/-- A concrete file node used in scenarios. -/
def fileA : FileNode := FileNode.mk "a.txt" "/a.txt" FileType.file []

/-- A second concrete file node used in scenarios. -/
def fileB : FileNode := FileNode.mk "b.txt" "/b.txt" FileType.file []

/-- A file node with a non-previewable extension (the spec's `image.png`). -/
def imageNode : FileNode := FileNode.mk "image.png" "/image.png" FileType.file []

/-- A file node with a previewable extension (the spec's `notes.md`). -/
def notesNode : FileNode := FileNode.mk "notes.md" "/notes.md" FileType.file []

/-- A staged delete confirmation for `fileA`. -/
def confDel : DeleteConfirmation := { file := fileA, isOpen := true }

/-- A state with `fileA` both previewed and staged for deletion. -/
def confState : PanelState :=
  { initialState with
      deleteConfirmation := some confDel
      selectedFile := some { path := "/a.txt", content := "old content", name := "a.txt" } }

/-- The stale-completion scenario of the spec: preview of `fileA` is issued,
then preview of `fileB` is issued (each issue sets `loading`), `fileB`'s
fetch resolves first and commits, and `fileA`'s stale fetch resolves last
and commits. -/
def staleScenario : PanelState :=
  previewCommit
    (previewCommit { initialState with loading := true } fileB
      (FetchFileResult.ok "content B"))
    fileA (FetchFileResult.ok "content A")

/-- Once the gate has issued a request at a time at least `t0`, no further
trigger strictly inside the window starting at `t0` issues another. -/
lemma runThrottle_closed_count (window t0 l : Nat) (ts : List Nat)
    (hl : t0 ≤ l) (h : ∀ t ∈ ts, t < t0 + window) :
    (runThrottle window (some l) ts).2 = 0 := by
  induction ts with
  | nil => rfl
  | cons t ts ih =>
      have ht : t < t0 + window := h t (List.mem_cons_self t ts)
      have hskip : ¬ (l + window ≤ t) := by omega
      simp only [runThrottle, throttleStep, if_neg hskip, if_false,
        Nat.zero_add, Bool.false_eq_true]
      exact ih (fun t' ht' => h t' (List.mem_cons_of_mem _ ht'))

/-- C1 (counterexample): in the stale-completion scenario — preview(A)
issued, preview(B) issued, B resolves and commits, then A's stale completion
resolves — Selected File ends as A's result, not B's: the code commits the
resolved content without comparing the resolved path against the
currently-requested path. -/
theorem preview_stale_overwrites_cex :
    staleScenario.selectedFile = some ⟨"/a.txt", "content A", "a.txt"⟩ ∧
    staleScenario.selectedFile ≠ some ⟨"/b.txt", "content B", "b.txt"⟩ :=
  ⟨rfl, by decide⟩

/-- C1 (amended): the completion handler of a preview fetch commits
unconditionally, so after two successful completions Selected File equals
the result of whichever completion was applied last — in the stale scenario
the first-issued, later-resolving preview A, never B. -/
theorem preview_last_commit_wins (s : PanelState) (a b : FileNode)
    (ca cb : String) :
    (previewCommit (previewCommit s b (FetchFileResult.ok cb)) a
        (FetchFileResult.ok ca)).selectedFile =
      some ⟨a.path, ca, a.name⟩ :=
  rfl

/-- C2: given any trigger events whose times all fall within one throttle
window `[t0, t0 + window)`, the spec-modelled gate of `workspaceService`
issues at most one request to the workspace tree endpoint, whatever the gate
state was before. -/
theorem workspace_throttle_window (window t0 : Nat) (last : Option Nat)
    (ts : List Nat) (h : ∀ t ∈ ts, t0 ≤ t ∧ t < t0 + window) :
    (runThrottle window last ts).2 ≤ 1 := by
  induction ts generalizing last with
  | nil => simp [runThrottle]
  | cons t ts ih =>
      have ht := h t (List.mem_cons_self t ts)
      have hrest : ∀ t' ∈ ts, t0 ≤ t' ∧ t' < t0 + window :=
        fun t' ht' => h t' (List.mem_cons_of_mem _ ht')
      have hzero : (runThrottle window (some t) ts).2 = 0 :=
        runThrottle_closed_count window t0 t ts ht.1
          (fun t' ht' => (hrest t' ht').2)
      match last with
      | none =>
          simp [runThrottle, throttleStep, hzero]
      | some l =>
          by_cases hle : l + window ≤ t
          · simp [runThrottle, throttleStep, if_pos hle, hzero]
          · simp only [runThrottle, throttleStep, if_neg hle, if_false,
              Nat.zero_add, Bool.false_eq_true]
            exact ih (some l) hrest

/-- C2 (witness): three triggers at times 0, 10 and 500 inside a
1000-wide window issue at most one request. -/
theorem workspace_throttle_window_witness :
    (runThrottle 1000 none [0, 10, 500]).2 ≤ 1 :=
  workspace_throttle_window 1000 0 none [0, 10, 500] (by decide)

/-- C3: on a successful fetch, `loadWorkspaceTree` replaces the Tree Model
wholesale with the response tree (`data.tree || []`) and clears the error;
on a failed fetch it leaves the Tree Model exactly as it was and sets the
error flag. -/
theorem loadWorkspaceTree_replaces_or_preserves (s : PanelState)
    (resp : TreeResponse) (e : String) :
    (loadWorkspaceTree s (Except.ok resp)).fileTree = resp.tree.getD [] ∧
    (loadWorkspaceTree s (Except.ok resp)).error = none ∧
    (loadWorkspaceTree s (Except.error e)).fileTree = s.fileTree ∧
    (loadWorkspaceTree s (Except.error e)).error = some "Error loading workspace" :=
  ⟨rfl, rfl, rfl, rfl⟩

/-- C4: clicking a file node whose name fails the extension allow-list
performs no network call and leaves the whole state (Selected File included)
unchanged; clicking a file node whose name passes the allow-list issues
exactly one file-content fetch. -/
theorem handleFileClick_extension_gate (s : PanelState) (f : FileNode)
    (r : FetchFileResult) (hf : f.type = FileType.file) :
    (isTextFile f.name = false → handleFileClick s f r = (s, 0)) ∧
    (isTextFile f.name = true → (handleFileClick s f r).2 = 1) := by
  constructor
  · intro h1
    simp [handleFileClick, hf, h1]
  · intro h2
    simp [handleFileClick, hf, h2]

/-- C4 (witness): previewing `image.png` is a no-op with zero fetches;
previewing `notes.md` issues exactly one fetch. -/
theorem handleFileClick_extension_gate_witness :
    handleFileClick initialState imageNode FetchFileResult.httpError =
      (initialState, 0) ∧
    (handleFileClick initialState notesNode FetchFileResult.httpError).2 = 1 :=
  ⟨(handleFileClick_extension_gate initialState imageNode
      FetchFileResult.httpError rfl).1 (by decide),
   (handleFileClick_extension_gate initialState notesNode
      FetchFileResult.httpError rfl).2 (by decide)⟩

/-- C5: with a confirmation staged for `conf.file`, a successful delete
refreshes the tree and clears Selected File exactly when the staged file's
path equals the previewed path; a failed delete (non-2xx or thrown) leaves
both the Tree Model and Selected File unchanged; cancelling performs no
network call. -/
theorem handleDeleteConfirm_spec (s : PanelState) (conf : DeleteConfirmation)
    (rr : Except String TreeResponse) (h : s.deleteConfirmation = some conf) :
    (handleDeleteConfirm s DeleteResult.ok rr).1.fileTree =
      (loadWorkspaceTree s rr).fileTree ∧
    (handleDeleteConfirm s DeleteResult.ok rr).1.selectedFile =
      (if s.selectedFile.any (fun sf : SelectedFile => sf.path == conf.file.path) = true
       then none else s.selectedFile) ∧
    (handleDeleteConfirm s DeleteResult.httpError rr).1.fileTree = s.fileTree ∧
    (handleDeleteConfirm s DeleteResult.httpError rr).1.selectedFile = s.selectedFile ∧
    (handleDeleteConfirm s DeleteResult.threw rr).1.fileTree = s.fileTree ∧
    (handleDeleteConfirm s DeleteResult.threw rr).1.selectedFile = s.selectedFile ∧
    (handleDeleteCancel s).2 = 0 := by
  by_cases hsel :
      s.selectedFile.any (fun sf : SelectedFile => sf.path == conf.file.path) = true <;>
    cases rr <;>
      simp [handleDeleteConfirm, loadWorkspaceTree, handleDeleteCancel, h, hsel]

/-- C5 (witness): with `/a.txt` previewed and staged, a successful delete
clears Selected File, and cancelling issues no network call. -/
theorem handleDeleteConfirm_spec_witness :
    (handleDeleteConfirm confState DeleteResult.ok
        (Except.ok ⟨some []⟩)).1.selectedFile = none ∧
    (handleDeleteCancel confState).2 = 0 := by
  have hs := handleDeleteConfirm_spec confState confDel (Except.ok ⟨some []⟩) rfl
  refine ⟨?_, hs.2.2.2.2.2.2⟩
  rw [hs.2.1]
  decide

/-- C6 (counterexample): when the download fetch succeeds and the
programmatic `a.click()` throws, an object URL is created but revoked zero
times — not exactly once — because `revokeObjectURL` runs after the click
with no `finally`. -/
theorem handleDownload_click_throw_cex :
    (handleDownload DownloadFetch.ok true).1 = 1 ∧
    (handleDownload DownloadFetch.ok true).2 = 0 :=
  ⟨rfl, rfl⟩

/-- C6 (amended): the object URL is never revoked more often than created;
when the click handler does not throw it is released exactly as many times
as created (once on the success path); but when the fetch succeeds and the
click handler throws, the created URL is never released. -/
theorem handleDownload_release (f : DownloadFetch) (c : Bool) :
    (c = false → (handleDownload f c).2 = (handleDownload f c).1) ∧
    (f = DownloadFetch.ok → c = true → handleDownload f c = (1, 0)) ∧
    (handleDownload f c).2 ≤ (handleDownload f c).1 := by
  cases f <;> cases c <;> simp [handleDownload]

/-- C6 (witness): on a successful download with a non-throwing click the URL
is released exactly as often as created; with a throwing click it is created
once and released zero times. -/
theorem handleDownload_release_witness :
    (handleDownload DownloadFetch.ok false).2 =
      (handleDownload DownloadFetch.ok false).1 ∧
    handleDownload DownloadFetch.ok true = (1, 0) :=
  ⟨(handleDownload_release DownloadFetch.ok false).1 rfl,
   (handleDownload_release DownloadFetch.ok true).2.1 rfl rfl⟩

/-- C7: uploading a non-empty list of files issues exactly one request per
file; when every upload succeeds exactly one tree refresh is triggered and
the Tree Model becomes the refreshed tree; when any upload fails, no refresh
is triggered, the Tree Model is untouched (no rollback), and the single
aggregate error message is surfaced. -/
theorem handleFileUpload_spec (s : PanelState)
    (uploads : List (String × Except String Unit))
    (rr : Except String TreeResponse) (_hne : uploads ≠ []) :
    (handleFileUpload s uploads rr).2.1 = uploads.length ∧
    (firstUploadError uploads = none →
      (handleFileUpload s uploads rr).2.2 = 1 ∧
      (handleFileUpload s uploads rr).1.fileTree =
        (loadWorkspaceTree s rr).fileTree) ∧
    (∀ msg, firstUploadError uploads = some msg →
      (handleFileUpload s uploads rr).2.2 = 0 ∧
      (handleFileUpload s uploads rr).1.fileTree = s.fileTree ∧
      (handleFileUpload s uploads rr).1.error =
        some ("Upload failed: " ++ msg)) := by
  refine ⟨?_, ?_, ?_⟩
  · cases hfe : firstUploadError uploads <;> simp [handleFileUpload, hfe]
  · intro hnone
    cases rr <;> simp [handleFileUpload, loadWorkspaceTree, hnone]
  · intro msg hsome
    cases rr <;> simp [handleFileUpload, loadWorkspaceTree, hsome]

/-- C7 (witness): uploading the single file `a.txt` successfully issues one
upload request and triggers exactly one refresh. -/
theorem handleFileUpload_spec_witness :
    (handleFileUpload initialState [("a.txt", Except.ok ())]
        (Except.ok ⟨some []⟩)).2.1 = 1 ∧
    (handleFileUpload initialState [("a.txt", Except.ok ())]
        (Except.ok ⟨some []⟩)).2.2 = 1 := by
  have hs := handleFileUpload_spec initialState [("a.txt", Except.ok ())]
    (Except.ok ⟨some []⟩) (by simp)
  exact ⟨hs.1, (hs.2.1 rfl).1⟩

/-- C8: a tree refresh, successful or failed, writes only the Tree Model and
the error flag: Expansion State, Selected File, the loading flag and the
staged confirmation are all left unchanged, and every path expanded before
the refresh is still expanded after it (present in the new tree or not). -/
theorem loadWorkspaceTree_frame (s : PanelState)
    (r : Except String TreeResponse) :
    (loadWorkspaceTree s r).expandedFolders = s.expandedFolders ∧
    (loadWorkspaceTree s r).selectedFile = s.selectedFile ∧
    (loadWorkspaceTree s r).loading = s.loading ∧
    (loadWorkspaceTree s r).deleteConfirmation = s.deleteConfirmation ∧
    (∀ p, p ∈ s.expandedFolders ↔ p ∈ (loadWorkspaceTree s r).expandedFolders) := by
  cases r <;> exact ⟨rfl, rfl, rfl, rfl, fun p => Iff.rfl⟩

/-- C9: toggling a path is an involution on the expansion set: a present
path is removed, an absent one is added, membership of every other path is
unchanged, and toggling twice restores the original set. -/
theorem toggleFolder_toggle (S : Finset String) (p : String) :
    (p ∈ S → toggleFolder S p = S.erase p) ∧
    (p ∉ S → toggleFolder S p = insert p S) ∧
    (∀ q, q ≠ p → (q ∈ toggleFolder S p ↔ q ∈ S)) ∧
    toggleFolder (toggleFolder S p) p = S := by
  by_cases hp : p ∈ S
  · refine ⟨fun _ => if_pos hp, fun hnp => absurd hp hnp, ?_, ?_⟩
    · intro q hq
      simp [toggleFolder, if_pos hp, Finset.mem_erase, hq]
    · have h1 : toggleFolder S p = S.erase p := if_pos hp
      rw [h1]
      have h2 : p ∉ S.erase p := Finset.not_mem_erase p S
      simp [toggleFolder, if_neg h2, Finset.insert_erase hp]
  · refine ⟨fun hp2 => absurd hp2 hp, fun _ => if_neg hp, ?_, ?_⟩
    · intro q hq
      simp [toggleFolder, if_neg hp, Finset.mem_insert, hq]
    · have h1 : toggleFolder S p = insert p S := if_neg hp
      rw [h1]
      have h2 : p ∈ insert p S := Finset.mem_insert_self p S
      simp [toggleFolder, if_pos h2, Finset.erase_insert hp]

/-- C9 (witness): toggling `/a/b` into an empty expansion set adds it, and
toggling it twice restores the empty set. -/
theorem toggleFolder_toggle_witness :
    toggleFolder (∅ : Finset String) "/a/b" = insert "/a/b" (∅ : Finset String) ∧
    toggleFolder (toggleFolder (∅ : Finset String) "/a/b") "/a/b" = ∅ :=
  ⟨(toggleFolder_toggle ∅ "/a/b").2.1 (by simp),
   (toggleFolder_toggle ∅ "/a/b").2.2.2⟩

/-- C10: however the confirm handler exits (success, non-2xx, thrown error,
or the early return when nothing is staged), the staged confirmation is
empty afterwards; and whenever a confirmation was staged, the shared loading
flag is false when the handler finishes. -/
theorem handleDeleteConfirm_clears_confirmation (s : PanelState)
    (dr : DeleteResult) (rr : Except String TreeResponse) :
    (handleDeleteConfirm s dr rr).1.deleteConfirmation = none ∧
    (s.deleteConfirmation.isSome = true →
      (handleDeleteConfirm s dr rr).1.loading = false) := by
  cases hc : s.deleteConfirmation with
  | none => simp [handleDeleteConfirm, hc]
  | some conf => simp [handleDeleteConfirm, hc]

/-- C10 (witness): a thrown delete with a staged confirmation still ends
with no staged confirmation and the loading flag false. -/
theorem handleDeleteConfirm_clears_confirmation_witness :
    (handleDeleteConfirm confState DeleteResult.threw
        (Except.error "boom")).1.deleteConfirmation = none ∧
    (handleDeleteConfirm confState DeleteResult.threw
        (Except.error "boom")).1.loading = false :=
  ⟨(handleDeleteConfirm_clears_confirmation confState DeleteResult.threw
      (Except.error "boom")).1,
   (handleDeleteConfirm_clears_confirmation confState DeleteResult.threw
      (Except.error "boom")).2 rfl⟩
